import Mathlib

/-
Verification of the IDX-Agent gateway router (src/api/endpoints.py).

The module is a thin HTTP gateway: it proxies two calls to an upstream
"EIDO Agent" service, tracks a process-wide set of claimed incident
identifiers, and exposes a stub correlation endpoint.

Shallow embedding conventions:
- JSON values are modelled by the inductive `Json`.
- The Python library call `json.loads` (and httpx's `response.json()`,
  which parses the response body the same way) is modelled by an abstract
  parse function `ParseFn := String → Except String Json`; the gateway
  never inspects how parsing works, only whether it succeeds, and on
  failure interpolates the exception text into its error detail.
- An outbound HTTP call's result is modelled by `HttpOutcome`: either a
  response with a status code and body text, or a network-level failure
  (`httpx.RequestError`) with an arbitrary cause string, covering
  connection refused, timeout, DNS failure, etc.
- `httpx.Response.raise_for_status` raises `httpx.HTTPStatusError`
  exactly when the status is outside the 2xx success range (`isSuccess`).
- FastAPI's `HTTPException(status_code=..., detail=...)` is the record
  `HTTPException`; a handler that can raise it returns
  `Except HTTPException _`.
- The process-wide Python `set` `claimed_incidents` is a duplicate-free
  `List String` (`ClaimedSet`, invariant `claimedSetInv`) threaded
  explicitly through the handlers; `handle` is the one-step
  transition of the whole router on a single request, also recording the
  outbound calls the handler performs (`OutboundCall`).
-/

/-- A JSON value, as produced by `json.loads`. -/
inductive Json where
  | null
  | bool (b : Bool)
  | num (n : Int)
  | str (s : String)
  | arr (elems : List Json)
  | obj (fields : List (String × Json))

/-- Abstract model of `json.loads`: success yields the decoded value,
failure yields the text of the `json.JSONDecodeError`. -/
abbrev ParseFn := String → Except String Json

/-- The observable result of one outbound HTTP call made with httpx:
either a response (status code and body text) or a network-level
failure (`httpx.RequestError`) with its message. -/
inductive HttpOutcome where
  | response (status : Nat) (text : String)
  | requestError (cause : String)

/-- httpx success range: `raise_for_status` raises `HTTPStatusError`
for any status outside 2xx. -/
def isSuccess (status : Nat) : Bool := 200 ≤ status && status < 300

/-- FastAPI `HTTPException(status_code=..., detail=...)`. -/
structure HTTPException where
  status_code : Nat
  detail : String
deriving DecidableEq

/-- The process-wide `claimed_incidents = set()` state: the set's
elements in some iteration order, duplicate-free by set semantics
(`claimedSetInv`).  `set.add` is `List.insert`: a no-op when the element
is already present, otherwise an insertion. -/
abbrev ClaimedSet := List String

/-- Invariant of every reachable `claimed_incidents` state: a Python set
never holds duplicates. -/
abbrev claimedSetInv (claimed : ClaimedSet) : Prop := claimed.Nodup

/-- `GET /api/v1/incidents` (`get_incidents` in endpoints.py): forwards a
GET to the upstream incidents endpoint.  On 2xx it returns the parsed
body.  `httpx.HTTPStatusError` (non-2xx) maps to an exception carrying
the upstream status code and `"Error from EIDO Agent: " ++ body text`;
`httpx.RequestError` maps to 502; a `json.JSONDecodeError` from
`response.json()` matches neither specific `except` clause and falls to
the generic `except Exception` handler, producing a 500. -/
def get_incidents (parse : ParseFn) (outcome : HttpOutcome) :
    Except HTTPException Json :=
  match outcome with
  | .response status text =>
      if isSuccess status then
        match parse text with
        | .ok j => .ok j
        | .error msg =>
            .error ⟨500,
              "An unexpected error occurred while fetching incidents: " ++ msg⟩
      else
        .error ⟨status, "Error from EIDO Agent: " ++ text⟩
  | .requestError cause =>
      .error ⟨502, "Error connecting to EIDO Agent: " ++ cause⟩

/-- `POST /api/v1/incidents/{incident_id}/claim` (`claim_incident`):
`claimed_incidents.add(incident_id)` then a confirmation message.
Always succeeds. -/
def claim_incident (claimed : ClaimedSet) (incident_id : String) :
    ClaimedSet × Json :=
  (claimed.insert incident_id,
   Json.obj [("message",
     Json.str ("Incident " ++ incident_id ++ " claimed."))])

/-- `GET /api/v1/incidents/claimed` (`get_claimed_incidents`):
`list(claimed_incidents)`. -/
def get_claimed_incidents (claimed : ClaimedSet) : List String :=
  claimed

/-- An uploaded file as FastAPI's `UploadFile` presents it: a filename
and the bytes returned by `await file.read()`. -/
structure UploadFile where
  filename : String
  content : String

/-- One outbound call made by a handler. -/
inductive OutboundCall where
  | getIncidentsCall
  | postIngest (body : Json)

/-- Python `str.endswith(sfx)`: a case-sensitive suffix test on the
character sequence. -/
def strEndsWith (s sfx : String) : Bool := sfx.data.isSuffixOf s.data

/-- `POST /api/v1/eido/upload` (`upload_eido`): rejects filenames not
ending in `".json"` with a 400; parses the body with `json.loads`,
rejecting parse failures with a 400; otherwise POSTs the decoded JSON to
the upstream ingest endpoint.  Upstream non-2xx maps to the upstream
status with its body text; `httpx.RequestError` maps to 502; a
`json.JSONDecodeError` from `response.json()` on a 2xx response has its
own `except` clause here, mapping to 502.  The first component lists the
outbound calls performed. -/
def upload_eido (parse : ParseFn) (file : UploadFile)
    (outcome : HttpOutcome) :
    List OutboundCall × Except HTTPException Json :=
  if !(strEndsWith file.filename ".json") then
    ([], .error ⟨400, "Invalid file type. Only .json files are accepted."⟩)
  else
    match parse file.content with
    | .error _ =>
        ([], .error ⟨400, "Invalid JSON format in uploaded file."⟩)
    | .ok eido_data =>
        ([OutboundCall.postIngest eido_data],
         match outcome with
         | .response status text =>
             if isSuccess status then
               match parse text with
               | .ok j => .ok j
               | .error _ =>
                   .error ⟨502,
                     "Received an invalid response from the EIDO Agent."⟩
             else
               .error ⟨status, "Error from EIDO Agent: " ++ text⟩
         | .requestError cause =>
             .error ⟨502, "Could not connect to EIDO Agent: " ++ cause⟩)

/-- Modelled from the spec: `CorrelationRequest` lives in
`models/schemas.py`, which is not present under `src/`; the spec states
the correlate payload is of "unspecified/unvalidated shape", so any JSON
value is accepted. -/
def CorrelationRequest := Json

/-- `POST /api/v1/incidents/correlate` (`correlate_incident`): a stub
that ignores its request and returns the constant
`status: "new", correlation_id: null` object. -/
def correlate_incident (_request : CorrelationRequest) : Json :=
  Json.obj [("status", Json.str "new"), ("correlation_id", Json.null)]

/-- An inbound request to the router, bundled with the outcome the
upstream would give for the outbound call (ignored by handlers that make
no outbound call). -/
inductive Request where
  | getIncidents (outcome : HttpOutcome)
  | claimIncident (incident_id : String)
  | getClaimedIncidents
  | uploadEido (file : UploadFile) (outcome : HttpOutcome)
  | correlateIncident (payload : Json)

/-- A response from the router: a JSON body, a list of strings, or an
`HTTPException`. -/
inductive Response where
  | ok (body : Json)
  | okStrings (body : List String)
  | err (e : HTTPException)

/-- One-step transition of the whole router on a single request: the new
claimed-incident set, the outbound calls performed, and the response.
Only `claim_incident` touches the set; every other handler never
references `claimed_incidents`. -/
def handle (parse : ParseFn) (claimed : ClaimedSet) (req : Request) :
    ClaimedSet × List OutboundCall × Response :=
  match req with
  | .getIncidents outcome =>
      (claimed, [OutboundCall.getIncidentsCall],
       match get_incidents parse outcome with
       | .ok j => .ok j
       | .error e => .err e)
  | .claimIncident incident_id =>
      ((claim_incident claimed incident_id).1, [],
       .ok (claim_incident claimed incident_id).2)
  | .getClaimedIncidents =>
      (claimed, [], .okStrings (get_claimed_incidents claimed))
  | .uploadEido file outcome =>
      (claimed, (upload_eido parse file outcome).1,
       match (upload_eido parse file outcome).2 with
       | .ok j => .ok j
       | .error e => .err e)
  | .correlateIncident payload =>
      (claimed, [], .ok (correlate_incident payload))

/-- C1: for every incident identifier string X and every claimed-set
state, performing Claim Incident with X and then List Claimed Incidents
yields a sequence that contains X. -/
theorem claim_then_list_contains (claimed : ClaimedSet) (X : String) :
    X ∈ get_claimed_incidents (claim_incident claimed X).1 :=
  List.mem_insert_self X claimed

/-- C2: for every uploaded file whose filename does not end with the
case-sensitive suffix ".json", Upload EIDO File fails with the
InvalidFileType error (status 400) regardless of the file's content and
of the upstream, and performs no outbound call. -/
theorem upload_wrong_suffix_rejected (parse : ParseFn) (file : UploadFile)
    (outcome : HttpOutcome)
    (h : strEndsWith file.filename ".json" = false) :
    upload_eido parse file outcome =
      ([], .error ⟨400, "Invalid file type. Only .json files are accepted."⟩) := by
  simp [upload_eido, h]

/-- Witness for C2 at the spec's example: a file named "data.txt". -/
theorem upload_wrong_suffix_rejected_witness :
    strEndsWith "data.txt" ".json" = false ∧
    upload_eido (fun _ => .ok Json.null)
        ⟨"data.txt", "arbitrary content"⟩ (.response 200 "ok") =
      ([], .error ⟨400, "Invalid file type. Only .json files are accepted."⟩) :=
  ⟨by decide,
   upload_wrong_suffix_rejected (fun _ => .ok Json.null)
     ⟨"data.txt", "arbitrary content"⟩ (.response 200 "ok") (by decide)⟩

/-- C3: for every uploaded file whose filename ends with ".json" but
whose body fails JSON parsing, Upload EIDO File fails with the
InvalidPayload error (status 400) and performs no outbound call to the
upstream ingest endpoint. -/
theorem upload_bad_json_rejected (parse : ParseFn) (file : UploadFile)
    (outcome : HttpOutcome) (msg : String)
    (hname : strEndsWith file.filename ".json" = true)
    (hparse : parse file.content = .error msg) :
    upload_eido parse file outcome =
      ([], .error ⟨400, "Invalid JSON format in uploaded file."⟩) := by
  simp [upload_eido, hname, hparse]

/-- Witness for C3 at the spec's example: "data.json" containing the
text "not valid json\x7b", with a parser that rejects it. -/
theorem upload_bad_json_rejected_witness :
    strEndsWith "data.json" ".json" = true ∧
    (fun _ => (.error "Expecting value" : Except String Json))
        (UploadFile.content ⟨"data.json", "not valid json\x7b"⟩) =
      .error "Expecting value" ∧
    upload_eido (fun _ => .error "Expecting value")
        ⟨"data.json", "not valid json\x7b"⟩ (.response 200 "ok") =
      ([], .error ⟨400, "Invalid JSON format in uploaded file."⟩) :=
  ⟨by decide, rfl,
   upload_bad_json_rejected (fun _ => .error "Expecting value")
     ⟨"data.json", "not valid json\x7b"⟩ (.response 200 "ok")
     "Expecting value" (by decide) rfl⟩

/-- C4: for both proxied operations (List Incidents, Upload EIDO File),
when the upstream responds with a non-success HTTP status, the operation
fails with an UpstreamError whose status code equals the upstream status
code and whose detail contains the upstream body text. -/
theorem upstream_error_propagated (parse : ParseFn) (status : Nat)
    (text : String) (file : UploadFile) (j : Json)
    (hfail : isSuccess status = false)
    (hname : strEndsWith file.filename ".json" = true)
    (hparse : parse file.content = .ok j) :
    ∃ e : HTTPException,
      get_incidents parse (.response status text) = .error e ∧
      (upload_eido parse file (.response status text)).2 = .error e ∧
      e.status_code = status ∧ ∃ p, e.detail = p ++ text := by
  refine ⟨⟨status, "Error from EIDO Agent: " ++ text⟩, ?_, ?_, rfl,
    "Error from EIDO Agent: ", rfl⟩
  · simp [get_incidents, hfail]
  · simp [upload_eido, hname, hparse, hfail]

/-- Witness for C4 at the spec's example: upstream HTTP 500 with body
"server error". -/
theorem upstream_error_propagated_witness :
    ∃ e : HTTPException,
      get_incidents (fun _ => .ok Json.null) (.response 500 "server error") =
        .error e ∧
      (upload_eido (fun _ => .ok Json.null) ⟨"data.json", "x"⟩
        (.response 500 "server error")).2 = .error e ∧
      e.status_code = 500 ∧ ∃ p, e.detail = p ++ "server error" :=
  upstream_error_propagated (fun _ => .ok Json.null) 500 "server error"
    ⟨"data.json", "x"⟩ Json.null (by decide) (by decide) rfl

/-- C5: for both proxied operations and every network-level failure of
the outbound call, whatever its cause text, the operation fails with the
GatewayConnectError carrying the fixed bad-gateway status 502. -/
theorem network_error_fixed_bad_gateway (parse : ParseFn) (cause : String)
    (file : UploadFile) (j : Json)
    (hname : strEndsWith file.filename ".json" = true)
    (hparse : parse file.content = .ok j) :
    (∃ d, get_incidents parse (.requestError cause) = .error ⟨502, d⟩) ∧
    (∃ d, (upload_eido parse file (.requestError cause)).2 =
      .error ⟨502, d⟩) := by
  refine ⟨⟨"Error connecting to EIDO Agent: " ++ cause, rfl⟩,
    ⟨"Could not connect to EIDO Agent: " ++ cause, ?_⟩⟩
  simp [upload_eido, hname, hparse]

/-- Witness for C5: a connection-refused cause on a valid upload. -/
theorem network_error_fixed_bad_gateway_witness :
    (∃ d, get_incidents (fun _ => .ok Json.null)
        (.requestError "connection refused") = .error ⟨502, d⟩) ∧
    (∃ d, (upload_eido (fun _ => .ok Json.null) ⟨"data.json", "x"⟩
        (.requestError "connection refused")).2 = .error ⟨502, d⟩) :=
  network_error_fixed_bad_gateway (fun _ => .ok Json.null)
    "connection refused" ⟨"data.json", "x"⟩ Json.null (by decide) rfl

/-- C6: when the upstream ingest endpoint answers Upload EIDO File with
a success status but a body that fails JSON parsing, the operation fails
with the UpstreamProtocolError carrying the bad-gateway status 502,
which differs as an error value from the client-side parse failure
InvalidPayload (status 400). -/
theorem upload_upstream_bad_body_protocol_error (parse : ParseFn)
    (status : Nat) (text : String) (file : UploadFile) (j : Json)
    (msg : String)
    (hname : strEndsWith file.filename ".json" = true)
    (hparse : parse file.content = .ok j)
    (hsucc : isSuccess status = true)
    (hbody : parse text = .error msg) :
    (upload_eido parse file (.response status text)).2 =
      .error ⟨502, "Received an invalid response from the EIDO Agent."⟩ ∧
    (⟨502, "Received an invalid response from the EIDO Agent."⟩ :
        HTTPException) ≠
      ⟨400, "Invalid JSON format in uploaded file."⟩ := by
  constructor
  · simp [upload_eido, hname, hparse, hsucc, hbody]
  · decide

/-- Witness for C6: empty-body uploads parse; the upstream 200 body
"<html>" does not. -/
theorem upload_upstream_bad_body_protocol_error_witness :
    strEndsWith "data.json" ".json" = true ∧
    isSuccess 200 = true ∧
    ((upload_eido
        (fun s => if s.length = 0 then .ok (Json.obj []) else
          .error "Expecting value")
        ⟨"data.json", ""⟩ (.response 200 "<html>")).2 =
      .error ⟨502, "Received an invalid response from the EIDO Agent."⟩ ∧
    (⟨502, "Received an invalid response from the EIDO Agent."⟩ :
        HTTPException) ≠
      ⟨400, "Invalid JSON format in uploaded file."⟩) :=
  ⟨by decide, by decide,
   upload_upstream_bad_body_protocol_error
     (fun s => if s.length = 0 then .ok (Json.obj []) else
       .error "Expecting value")
     200 "<html>" ⟨"data.json", ""⟩ (Json.obj []) "Expecting value"
     (by decide) rfl (by decide) rfl⟩

/-- C7: Correlate Incident accepts any JSON payload, including the empty
object, leaves the claimed set untouched, makes no outbound call, and
always returns the constant result with status "new" and a null
correlation id. -/
theorem correlate_always_constant (parse : ParseFn) (claimed : ClaimedSet)
    (payload : Json) :
    handle parse claimed (.correlateIncident payload) =
      (claimed, [],
       .ok (Json.obj [("status", Json.str "new"),
                      ("correlation_id", Json.null)])) ∧
    correlate_incident (Json.obj []) =
      Json.obj [("status", Json.str "new"), ("correlation_id", Json.null)] :=
  ⟨rfl, rfl⟩

/-- C8: Claim Incident is idempotent: from any duplicate-free state of
the claimed set, claiming X twice yields the same set as claiming X
once, and the resulting set holds exactly one occurrence of X. -/
theorem claim_idempotent (claimed : ClaimedSet) (X : String)
    (hinv : claimedSetInv claimed) :
    (claim_incident (claim_incident claimed X).1 X).1 =
      (claim_incident claimed X).1 ∧
    ((claim_incident claimed X).1).count X = 1 := by
  constructor
  · exact congrArg (Prod.fst)
      (congrArg (fun l => (l, (claim_incident (claimed.insert X) X).2))
        (List.insert_of_mem (List.mem_insert_self X claimed)))
  · by_cases hX : X ∈ claimed
    · rw [show (claim_incident claimed X).1 = claimed from
        List.insert_of_mem hX]
      exact List.count_eq_one_of_mem hinv hX
    · rw [show (claim_incident claimed X).1 = X :: claimed from
        List.insert_of_not_mem hX]
      simp [List.count_cons_self, List.count_eq_zero.mpr hX]

/-- Witness for C8 on the state holding only "a", claiming "b". -/
theorem claim_idempotent_witness :
    claimedSetInv ["a"] ∧
    ((claim_incident (claim_incident ["a"] "b").1 "b").1 =
      (claim_incident ["a"] "b").1 ∧
    ((claim_incident ["a"] "b").1).count "b" = 1) :=
  ⟨by decide, claim_idempotent ["a"] "b" (by decide)⟩

/-- C9: only Claim Incident modifies the claimed set: every other
request leaves the set unchanged whatever its input and outcome, and no
request ever removes an identifier from the set. -/
theorem only_claim_mutates (parse : ParseFn) (claimed : ClaimedSet)
    (req : Request) :
    ((∀ incident_id, req ≠ Request.claimIncident incident_id) →
      (handle parse claimed req).1 = claimed) ∧
    (∀ x, x ∈ claimed → x ∈ (handle parse claimed req).1) := by
  constructor
  · intro hnc
    cases req with
    | claimIncident incident_id => exact absurd rfl (hnc incident_id)
    | getIncidents outcome => rfl
    | getClaimedIncidents => rfl
    | uploadEido file outcome => rfl
    | correlateIncident payload => rfl
  · intro x hx
    cases req with
    | claimIncident incident_id =>
        exact List.mem_insert_iff.mpr (Or.inr hx)
    | getIncidents outcome => exact hx
    | getClaimedIncidents => exact hx
    | uploadEido file outcome => exact hx
    | correlateIncident payload => exact hx

/-- Witness for C9: List Claimed Incidents on the state holding "a"
leaves the set unchanged and keeps "a" in it. -/
theorem only_claim_mutates_witness :
    (handle (fun _ => .error "e") ["a"] Request.getClaimedIncidents).1 =
      ["a"] ∧
    "a" ∈ (handle (fun _ => .error "e") ["a"]
      Request.getClaimedIncidents).1 :=
  ⟨(only_claim_mutates (fun _ => .error "e") ["a"]
      Request.getClaimedIncidents).1
     (fun incident_id h => Request.noConfusion h),
   (only_claim_mutates (fun _ => .error "e") ["a"]
      Request.getClaimedIncidents).2 "a" (by decide)⟩

/-- C10: when the upstream answers with a success status and a body that
fails JSON parsing, List Incidents fails with the generic InternalError
(status 500) while Upload EIDO File fails with the bad-gateway
UpstreamProtocolError (status 502) in the same situation. -/
theorem list_incidents_bad_upstream_json_internal (parse : ParseFn)
    (status : Nat) (text : String) (msg : String) (file : UploadFile)
    (j : Json)
    (hsucc : isSuccess status = true)
    (hbody : parse text = .error msg)
    (hname : strEndsWith file.filename ".json" = true)
    (hparse : parse file.content = .ok j) :
    get_incidents parse (.response status text) =
      .error ⟨500,
        "An unexpected error occurred while fetching incidents: " ++ msg⟩ ∧
    (upload_eido parse file (.response status text)).2 =
      .error ⟨502, "Received an invalid response from the EIDO Agent."⟩ := by
  constructor
  · simp [get_incidents, hsucc, hbody]
  · simp [upload_eido, hname, hparse, hsucc, hbody]

/-- Witness for C10: a 200 response whose body "<html>" fails to parse,
against both proxied operations. -/
theorem list_incidents_bad_upstream_json_internal_witness :
    isSuccess 200 = true ∧
    (get_incidents
        (fun s => if s.length = 0 then .ok (Json.obj []) else
          .error "Expecting value")
        (.response 200 "<html>") =
      .error ⟨500,
        "An unexpected error occurred while fetching incidents: " ++
          "Expecting value"⟩ ∧
    (upload_eido
        (fun s => if s.length = 0 then .ok (Json.obj []) else
          .error "Expecting value")
        ⟨"data.json", ""⟩ (.response 200 "<html>")).2 =
      .error ⟨502, "Received an invalid response from the EIDO Agent."⟩) :=
  ⟨by decide,
   list_incidents_bad_upstream_json_internal
     (fun s => if s.length = 0 then .ok (Json.obj []) else
       .error "Expecting value")
     200 "<html>" "Expecting value" ⟨"data.json", ""⟩ (Json.obj [])
     (by decide) rfl (by decide) rfl⟩
